import Mathlib

/-!
Verification of the mobile-money ledger backend (Express + Mongoose).

This file gives a shallow embedding of the ledger core: the Mongoose
models `Account`, `Transaction`, `Payment` (with their schema-level
validators and unique indexes), the helper `validateAmount` and
`validatePagination` (src/utils/helpers.js), and the route handlers
`POST /deposit`, `POST /withdraw`, `POST /transfer` (PAYSTACK variant,
src/routes/authTransactions.js), `POST /paystack/verify/:reference`,
`POST /paystack/webhook` and `GET /history` (routes/authPayment.js,
COMPLETE FIX variant).

Modelling conventions:
  - JS numbers holding money are modelled as rationals; the regex test
    on the decimal rendering of an amount is modelled as the predicate
    that 100 times the amount is an integer.
  - Mongoose sessions with commit/abort are modelled by operations of
    type `Except String MutResult`: on `error` the whole unit aborts
    and the pre-state is kept (`applyOp`).
  - `save()` enforces the schema validators (`min: 0` on balances and
    amounts) and the declared unique indexes: the compound index on
    Transaction `(reference, type)` and the unique `paymentReference`
    index on Payment.  A violating save throws and aborts the unit.
  - Accounts are keyed by their `accountNumber`; the auth middleware
    binding from `userId` to the caller account is out of scope, so
    route handlers take the caller accountNumber directly.
  - `Date.now()` timestamps are passed in as a `now : Nat` parameter;
    random reference generation is passed in as an explicit `ref`
    argument.  Fields irrelevant to the claims (ip address, user agent
    metadata, completedAt) are elided.
-/

namespace BankLedger

/-- A JavaScript request-body value: a number, a string, or undefined. -/
inductive JsValue where
  | num (q : ℚ)
  | str (s : String)
  | undef
deriving Repr, DecidableEq

/-- JS truthiness of a request value (`!amount` is true for 0, the empty
string and undefined). -/
def JsValue.truthy : JsValue → Bool
  | .num q => decide (q ≠ 0)
  | .str s => s ≠ ""
  | .undef => false

/-- Result record of `validateAmount` in src/utils/helpers.js. -/
structure AmountCheck where
  valid : Bool
  amount : ℚ
  error : String
deriving Repr, DecidableEq

/-- Models the JS regex test of helpers.js line 68 on the decimal
rendering of the amount: the string of a nonnegative number matches the
pattern of digits with at most two fractional digits exactly when one
hundred times the number is an integer. -/
def hasAtMostTwoDecimals (q : ℚ) : Bool := (100 * q).den == 1

/-- Models `parseFloat(amount.toFixed(2))`: round to two decimal places. -/
def roundTo2 (q : ℚ) : ℚ := ((round (100 * q) : ℤ) : ℚ) / 100

/-- `validateAmount` from src/utils/helpers.js lines 42 to 79. -/
def validateAmount (amount : JsValue) : AmountCheck :=
  if !amount.truthy then ⟨false, 0, "Amount must be a valid number"⟩
  else
    match amount with
    | .num q =>
      if q < 1 / 100 then ⟨false, 0, "Amount must be at least 0.01"⟩
      else if q > 100000 then ⟨false, 0, "Amount cannot exceed 100000"⟩
      else if !hasAtMostTwoDecimals q then
        ⟨false, 0, "Amount can have maximum 2 decimal places"⟩
      else ⟨true, roundTo2 q, ""⟩
    | _ => ⟨false, 0, "Amount must be a valid number"⟩

/-- Result record of `validatePagination` in src/utils/helpers.js. -/
structure PaginationCheck where
  page : ℤ
  limit : ℤ
  skip : ℤ
deriving Repr, DecidableEq

/-- `validatePagination` from src/utils/helpers.js lines 340 to 349:
`parseInt(x) || default` is modelled by an optional integer input. -/
def validatePagination (page limit : Option ℤ) : PaginationCheck :=
  let validPage := max (page.getD 1) 1
  let validLimit := min (max (limit.getD 20) 1) 100
  ⟨validPage, validLimit, (validPage - 1) * validLimit⟩

/-- An `Account` document (src/models/Account.js): the fields the ledger
core reads and writes.  The schema declares `balance` with `min: 0`. -/
structure Account where
  accountNumber : String
  balance : ℚ
  currency : String
  status : String
deriving Repr, DecidableEq

/-- A `Transaction` document (src/models/Transaction.js).  The schema
declares `amount` with `min: 0` and a unique compound index on
`(reference, type)`. -/
structure Txn where
  accountId : String
  type : String
  amount : ℚ
  currency : String
  status : String
  description : String
  balanceBefore : ℚ
  balanceAfter : ℚ
  reference : String
  createdAt : Nat
deriving Repr, DecidableEq

/-- A `Payment` document (src/models/Payment.js).  The schema declares
`amount` with `min: 0` and `paymentReference` with `unique: true`. -/
structure PaymentRec where
  accountId : String
  paymentMethod : String
  amount : ℚ
  currency : String
  status : String
  paymentReference : String
deriving Repr, DecidableEq

/-- The persisted store: the three collections. -/
structure St where
  accounts : List Account
  transactions : List Txn
  payments : List PaymentRec
deriving Repr, DecidableEq

/-- `Account.findOne` by account number (also standing in for the lookup
of the authenticated caller account). -/
def findAccount (s : St) (n : String) : Option Account :=
  s.accounts.find? (fun a => a.accountNumber == n)

/-- `account.save({ session })`: runs the schema validators; the `min: 0`
validator on `balance` rejects a negative balance, which throws inside
the session and aborts the unit.  A passing save replaces the stored
document. -/
def saveAccount (s : St) (a : Account) : Except String St :=
  if a.balance < 0 then
    .error "Account validation failed: balance is less than minimum allowed value 0"
  else
    .ok { s with
          accounts := s.accounts.map
            (fun b => if b.accountNumber == a.accountNumber then a else b) }

/-- `transaction.save({ session })`: the `min: 0` validator on `amount`,
then the unique compound index on `(reference, type)` declared at
src/models/Transaction.js line 67; a duplicate key aborts the unit. -/
def saveTxn (s : St) (t : Txn) : Except String St :=
  if t.amount < 0 then
    .error "Transaction validation failed: amount is less than minimum allowed value 0"
  else if s.transactions.any (fun u => u.reference == t.reference && u.type == t.type) then
    .error "E11000 duplicate key error index reference_1_type_1"
  else
    .ok { s with transactions := s.transactions ++ [t] }

/-- `payment.save({ session })`: the `min: 0` validator on `amount`, then
the unique index on `paymentReference` declared at
src/models/Payment.js lines 42 to 47; a duplicate key aborts the unit. -/
def savePayment (s : St) (p : PaymentRec) : Except String St :=
  if p.amount < 0 then
    .error "Payment validation failed: amount is less than minimum allowed value 0"
  else if s.payments.any (fun q => q.paymentReference == p.paymentReference) then
    .error "E11000 duplicate key error index paymentReference_1"
  else
    .ok { s with payments := s.payments ++ [p] }

/-- What a successful mutating route responds with, together with the
committed store. -/
structure MutResult where
  newState : St
  message : String
  txn : Option Txn
  payment : Option PaymentRec
  newBalance : ℚ
deriving Repr, DecidableEq

/-- `POST /deposit` (src/routes/authTransactions.js lines 376 to 435):
validate the amount, look up the caller account, require `active`
status, credit in memory, then save account and transaction in one
session. -/
def deposit (s : St) (caller : String) (amount : JsValue)
    (description : Option String) (ref : String) (now : Nat) :
    Except String MutResult :=
  let v := validateAmount amount
  if !v.valid then .error v.error
  else
    match findAccount s caller with
    | none => .error "Account not found"
    | some account =>
      if account.status != "active" then .error "Account is not active"
      else
        let balanceBefore := account.balance
        let updated := { account with balance := account.balance + v.amount }
        let balanceAfter := updated.balance
        let txn : Txn :=
          { accountId := account.accountNumber
            type := "deposit"
            amount := v.amount
            currency := account.currency
            status := "completed"
            description := description.getD "Deposit"
            balanceBefore := balanceBefore
            balanceAfter := balanceAfter
            reference := ref
            createdAt := now }
        match saveAccount s updated with
        | .error e => .error e
        | .ok s1 =>
          match saveTxn s1 txn with
          | .error e => .error e
          | .ok s2 =>
            .ok ⟨s2, "Deposit completed successfully", some txn, none, updated.balance⟩

/-- `POST /withdraw` (src/routes/authTransactions.js lines 438 to 501):
like deposit, plus the insufficient-funds guard at lines 461 to 463,
then debit. -/
def withdraw (s : St) (caller : String) (amount : JsValue)
    (description : Option String) (ref : String) (now : Nat) :
    Except String MutResult :=
  let v := validateAmount amount
  if !v.valid then .error v.error
  else
    match findAccount s caller with
    | none => .error "Account not found"
    | some account =>
      if account.status != "active" then .error "Account is not active"
      else if account.balance < v.amount then .error "Insufficient funds"
      else
        let balanceBefore := account.balance
        let updated := { account with balance := account.balance - v.amount }
        let balanceAfter := updated.balance
        let txn : Txn :=
          { accountId := account.accountNumber
            type := "withdrawal"
            amount := v.amount
            currency := account.currency
            status := "completed"
            description := description.getD "Withdrawal"
            balanceBefore := balanceBefore
            balanceAfter := balanceAfter
            reference := ref
            createdAt := now }
        match saveAccount s updated with
        | .error e => .error e
        | .ok s1 =>
          match saveTxn s1 txn with
          | .error e => .error e
          | .ok s2 =>
            .ok ⟨s2, "Withdrawal completed successfully", some txn, none, updated.balance⟩

/-- `POST /transfer` (src/routes/authTransactions.js, PAYSTACK variant,
lines 504 to 694): validation and precondition checks in source order,
the idempotency lookup on `(reference, transfer_out)` at lines 558 to
572, then debit sender, credit recipient, and save both accounts, both
transaction legs and both payment records in one session.  Note that
both payment records carry `paymentReference := transferRef`. -/
def transfer (s : St) (caller : String) (reference : String)
    (recipientAccountNumber : String) (amount : JsValue)
    (description : Option String) (now : Nat) : Except String MutResult :=
  let v := validateAmount amount
  if !v.valid then .error v.error
  else if recipientAccountNumber == "" then
    .error "Recipient account number is required"
  else if reference == "" then .error "Paystack reference is required"
  else
    match findAccount s caller with
    | none => .error "Sender account not found"
    | some senderAccount =>
      if senderAccount.status != "active" then
        .error "Sender account is not active"
      else
        match findAccount s recipientAccountNumber with
        | none => .error "Recipient account not found"
        | some recipientAccount =>
          if recipientAccount.status != "active" then
            .error "Recipient account is not active"
          else if senderAccount.accountNumber == recipientAccountNumber then
            .error "Cannot transfer to same account"
          else if senderAccount.balance < v.amount then
            .error "Insufficient funds"
          else
            match s.transactions.find?
                (fun t => t.reference == reference && t.type == "transfer_out") with
            | some existingTransfer =>
              .ok ⟨s, "Transfer already completed", some existingTransfer, none,
                   senderAccount.balance⟩
            | none =>
              let transferRef := reference
              let senderBalanceBefore := senderAccount.balance
              let senderUpdated :=
                { senderAccount with balance := senderAccount.balance - v.amount }
              let senderBalanceAfter := senderUpdated.balance
              let senderTransaction : Txn :=
                { accountId := senderAccount.accountNumber
                  type := "transfer_out"
                  amount := v.amount
                  currency := senderAccount.currency
                  status := "completed"
                  description := description.getD
                    ("Transfer to " ++ recipientAccountNumber)
                  balanceBefore := senderBalanceBefore
                  balanceAfter := senderBalanceAfter
                  reference := transferRef
                  createdAt := now }
              let senderPayment : PaymentRec :=
                { accountId := senderAccount.accountNumber
                  paymentMethod := "transfer"
                  amount := v.amount
                  currency := senderAccount.currency
                  status := "completed"
                  paymentReference := transferRef }
              let recipientBalanceBefore := recipientAccount.balance
              let recipientUpdated :=
                { recipientAccount with balance := recipientAccount.balance + v.amount }
              let recipientBalanceAfter := recipientUpdated.balance
              let recipientTransaction : Txn :=
                { accountId := recipientAccount.accountNumber
                  type := "transfer_in"
                  amount := v.amount
                  currency := recipientAccount.currency
                  status := "completed"
                  description := description.getD
                    ("Transfer from " ++ senderAccount.accountNumber)
                  balanceBefore := recipientBalanceBefore
                  balanceAfter := recipientBalanceAfter
                  reference := transferRef
                  createdAt := now }
              let recipientPayment : PaymentRec :=
                { accountId := recipientAccount.accountNumber
                  paymentMethod := "transfer"
                  amount := v.amount
                  currency := recipientAccount.currency
                  status := "completed"
                  paymentReference := transferRef }
              match saveAccount s senderUpdated with
              | .error e => .error e
              | .ok s1 =>
                match saveAccount s1 recipientUpdated with
                | .error e => .error e
                | .ok s2 =>
                  match saveTxn s2 senderTransaction with
                  | .error e => .error e
                  | .ok s3 =>
                    match saveTxn s3 recipientTransaction with
                    | .error e => .error e
                    | .ok s4 =>
                      match savePayment s4 senderPayment with
                      | .error e => .error e
                      | .ok s5 =>
                        match savePayment s5 recipientPayment with
                        | .error e => .error e
                        | .ok s6 =>
                          .ok ⟨s6, "Transfer completed successfully",
                               some senderTransaction, none, senderUpdated.balance⟩

/-- The response of the external gateway to the status query made by the
verify route (the `data` object of the Paystack verify response): the
final charge status, the amount in minor units, and the metadata stored
at initialize time. -/
structure GatewayData where
  status : String
  amount : ℚ
  paymentMethod : String
  recipientName : String
  network : String
  phoneNumber : String
  description : String
deriving Repr, DecidableEq

/-- The JS idiom `a || b` on strings: the first operand unless it is
empty. -/
def descOr (d fallback : String) : String := if d != "" then d else fallback

/-- The ledger-mutating tail of the verify route (lines 215 to 336):
the card and wallet branch debits with no balance re-validation and no
status check; the mobile-money branch credits likewise. -/
def verifyPaymentTail (s : St) (account : Account) (reference : String)
    (gw : GatewayData) (amount : ℚ) (paymentMethod : String) (now : Nat) :
    Except String MutResult :=
  if paymentMethod == "card" || paymentMethod == "wallet" then
    let payment : PaymentRec :=
      { accountId := account.accountNumber
        paymentMethod := paymentMethod
        amount := amount
        currency := account.currency
        status := "completed"
        paymentReference := reference }
    let balanceBefore := account.balance
    let updated := { account with balance := account.balance - amount }
    let balanceAfter := updated.balance
    let transaction : Txn :=
      { accountId := account.accountNumber
        type := "payment"
        amount := amount
        currency := account.currency
        status := "completed"
        description := descOr gw.description ("Payment to " ++ gw.recipientName)
        balanceBefore := balanceBefore
        balanceAfter := balanceAfter
        reference := reference
        createdAt := now }
    match saveAccount s updated with
    | .error e => .error e
    | .ok s1 =>
      match saveTxn s1 transaction with
      | .error e => .error e
      | .ok s2 =>
        match savePayment s2 payment with
        | .error e => .error e
        | .ok s3 =>
          .ok ⟨s3, "Payment completed successfully", some transaction,
               some payment, updated.balance⟩
  else if paymentMethod == "mobile_money" then
    let payment : PaymentRec :=
      { accountId := account.accountNumber
        paymentMethod := "mobile_money"
        amount := amount
        currency := account.currency
        status := "completed"
        paymentReference := reference }
    let balanceBefore := account.balance
    let updated := { account with balance := account.balance + amount }
    let balanceAfter := updated.balance
    let transaction : Txn :=
      { accountId := account.accountNumber
        type := "deposit"
        amount := amount
        currency := account.currency
        status := "completed"
        description := "Mobile money deposit via " ++ gw.network
        balanceBefore := balanceBefore
        balanceAfter := balanceAfter
        reference := reference
        createdAt := now }
    match saveAccount s updated with
    | .error e => .error e
    | .ok s1 =>
      match saveTxn s1 transaction with
      | .error e => .error e
      | .ok s2 =>
        match savePayment s2 payment with
        | .error e => .error e
        | .ok s3 =>
          .ok ⟨s3, "Deposit completed successfully", some transaction,
               some payment, updated.balance⟩
  else .error "Invalid payment method"

/-- `POST /paystack/verify/:reference` (routes/authPayment.js, COMPLETE
FIX variant, lines 158 to 347): check the gateway status, look up the
caller account, short-circuit on an already completed payment for the
reference, then branch on the stored method: card and wallet debit the
account, mobile money credits it; account, transaction and payment are
saved in one session. -/
def verifyPayment (s : St) (caller : String) (reference : String)
    (gw : GatewayData) (now : Nat) : Except String MutResult :=
  if gw.status != "success" then .error "Payment verification failed"
  else
    let amount := gw.amount / 100
    let paymentMethod := gw.paymentMethod
    match findAccount s caller with
    | none => .error "Account not found"
    | some account =>
      match s.payments.find? (fun p => p.paymentReference == reference) with
      | some existingPayment =>
        if existingPayment.status == "completed" then
          .ok ⟨s, "Payment already processed", none, some existingPayment,
               account.balance⟩
        else
          verifyPaymentTail s account reference gw amount paymentMethod now
      | none => verifyPaymentTail s account reference gw amount paymentMethod now

/-- A caller-initiated operation against the ledger core, with all
environment inputs (timestamps, generated references, gateway answer)
made explicit. -/
inductive Op where
  | deposit (caller : String) (amount : JsValue) (description : Option String)
      (ref : String) (now : Nat)
  | withdraw (caller : String) (amount : JsValue) (description : Option String)
      (ref : String) (now : Nat)
  | transfer (caller reference recipientAccountNumber : String)
      (amount : JsValue) (description : Option String) (now : Nat)
  | verify (caller reference : String) (gw : GatewayData) (now : Nat)
deriving Repr, DecidableEq

/-- Dispatch an operation to its route handler. -/
def runOp (s : St) : Op → Except String MutResult
  | .deposit c a d r n => deposit s c a d r n
  | .withdraw c a d r n => withdraw s c a d r n
  | .transfer c ref rcpt a d n => transfer s c ref rcpt a d n
  | .verify c ref gw n => verifyPayment s c ref gw n

/-- The store after an operation: the committed state on success, the
unchanged pre-state when the session aborted. -/
def applyOp (s : St) (op : Op) : St :=
  match runOp s op with
  | .ok r => r.newState
  | .error _ => s

/-- The store after a sequence of operations. -/
def runOps (s : St) (ops : List Op) : St := ops.foldl applyOp s

/-- Newest-first order on transactions, as produced by the Mongo sort
`{ createdAt: -1 }`. -/
def newerFirst (a b : Txn) : Prop := b.createdAt ≤ a.createdAt

instance : DecidableRel newerFirst := fun a b =>
  inferInstanceAs (Decidable (b.createdAt ≤ a.createdAt))

instance : IsTotal Txn newerFirst :=
  ⟨fun a b => Nat.le_total b.createdAt a.createdAt⟩

instance : IsTrans Txn newerFirst :=
  ⟨fun _ _ _ hab hbc => Nat.le_trans hbc hab⟩

/-- `Transaction.find(query).sort({ createdAt: -1 })`. -/
def sortDesc (l : List Txn) : List Txn := List.insertionSort newerFirst l

/-- `GET /history` (src/routes/authTransactions.js lines 309 to 345):
filter by account and the optional type and status filters, sort newest
first, then `.limit(limit * 1).skip((page - 1) * limit)` with the raw
caller-supplied values defaulted to page 1 and limit 20.  The route
does not call `validatePagination`. -/
def history (s : St) (caller : String) (page limit : Option Nat)
    (typeFilter statusFilter : Option String) : Except String (List Txn) :=
  match findAccount s caller with
  | none => .error "Account not found"
  | some account =>
    let p := page.getD 1
    let lim := limit.getD 20
    let query := s.transactions.filter (fun t =>
      t.accountId == account.accountNumber
      && (match typeFilter with | some ty => t.type == ty | none => true)
      && (match statusFilter with | some stf => t.status == stf | none => true))
    .ok (((sortDesc query).drop ((p - 1) * lim)).take lim)

/-- A JSON scalar in a webhook body. -/
inductive JVal where
  | jstr (s : String)
  | jnum (n : ℤ)
deriving Repr, DecidableEq

/-- A flat JSON object, the shape of the Paystack webhook event body
after `express.json()` has parsed it. -/
structure JObj where
  fields : List (String × JVal)
deriving Repr, DecidableEq

/-- The opening-brace character, written by its code point. -/
def lbrace : Char := Char.ofNat 123

/-- The closing-brace character, written by its code point. -/
def rbrace : Char := Char.ofNat 125

/-- Wrap a string in double quotes, as `JSON.stringify` renders keys and
string values (no escaping is needed for the bodies considered here). -/
def quoteStr (s : String) : String := "\"" ++ s ++ "\""

/-- `JSON.stringify` of a scalar. -/
def stringifyVal : JVal → String
  | .jstr s => quoteStr s
  | .jnum n => toString n

/-- `JSON.stringify` of the member list: comma separated, no spaces. -/
def stringifyFields : List (String × JVal) → String
  | [] => ""
  | [(k, v)] => quoteStr k ++ ":" ++ stringifyVal v
  | (k, v) :: rest =>
    quoteStr k ++ ":" ++ stringifyVal v ++ "," ++ stringifyFields rest

/-- `JSON.stringify(req.body)`: the canonical rendering of the parsed
body, which is what `verifyPaystackSignature` feeds to the HMAC. -/
def jsonStringify (o : JObj) : String :=
  String.mk [lbrace] ++ stringifyFields o.fields ++ String.mk [rbrace]

/-- Drop leading JSON whitespace. -/
def skipWs (cs : List Char) : List Char :=
  cs.dropWhile (fun c => c = ' ' || c = '\n' || c = '\t' || c = '\r')

/-- Scan the characters of a JSON string literal up to the closing
quote; returns the content and the rest. -/
def takeStringChars : List Char → Option (List Char × List Char)
  | [] => none
  | c :: rest =>
    if c = '"' then some ([], rest)
    else
      match takeStringChars rest with
      | some (cs, r) => some (c :: cs, r)
      | none => none

/-- Parse one `"key": "value"` member of a flat JSON object. -/
def parseMember (cs : List Char) : Option ((String × JVal) × List Char) :=
  match skipWs cs with
  | '"' :: rest =>
    match takeStringChars rest with
    | none => none
    | some (kcs, r1) =>
      match skipWs r1 with
      | ':' :: r2 =>
        match skipWs r2 with
        | '"' :: r3 =>
          match takeStringChars r3 with
          | none => none
          | some (vcs, r4) => some ((String.mk kcs, .jstr (String.mk vcs)), r4)
        | _ => none
      | _ => none
  | _ => none

/-- Parse a comma-separated member list, with fuel. -/
def parseMembers : Nat → List Char → Option (List (String × JVal) × List Char)
  | 0, _ => none
  | fuel + 1, cs =>
    match parseMember cs with
    | none => none
    | some (kv, rest) =>
      match skipWs rest with
      | ',' :: r2 =>
        match parseMembers fuel r2 with
        | some (kvs, r3) => some (kv :: kvs, r3)
        | none => none
      | r2 => some ([kv], r2)

/-- Parse a raw request body as a flat JSON object, the way
`express.json()` does for the webhook bodies considered here:
whitespace between tokens is accepted and discarded. -/
def jsonParse (s : String) : Option JObj :=
  match skipWs s.toList with
  | c :: rest =>
    if c = lbrace then
      match parseMembers (s.length + 1) rest with
      | some (fs, r) =>
        match r with
        | c2 :: r2 =>
          if c2 = rbrace && (skipWs r2).isEmpty then some ⟨fs⟩ else none
        | [] => none
      | none => none
    else none
  | [] => none

/-- An inbound webhook request: the raw bytes on the wire, the body as
parsed by `express.json()`, and the signature header. -/
structure WebhookRequest where
  rawBody : String
  body : JObj
  signatureHeader : String

/-- `verifyPaystackSignature` (routes/authPayment.js lines 19 to 26):
HMAC-SHA512 of `JSON.stringify(req.body)` under the shared secret,
compared to the `x-paystack-signature` header with the ordinary string
equality operator.  The HMAC primitive is an explicit parameter of the
model. -/
def verifyPaystackSignature (hmac : String → String → String)
    (secret : String) (r : WebhookRequest) : Bool :=
  hmac secret (jsonStringify r.body) == r.signatureHeader

/-- An HTTP status and success flag, the webhook response shape. -/
structure WebhookResponse where
  status : Nat
  success : Bool
deriving Repr, DecidableEq

/-- `POST /paystack/webhook` (routes/authPayment.js lines 350 to 371):
reject with 401 when the signature does not verify; otherwise log the
event and answer 200.  Neither branch touches the store. -/
def paystackWebhook (hmac : String → String → String) (secret : String)
    (s : St) (r : WebhookRequest) : St × WebhookResponse :=
  if !(verifyPaystackSignature hmac secret r) then (s, ⟨401, false⟩)
  else (s, ⟨200, true⟩)

deriving instance DecidableEq for Except

attribute [local semireducible] Rat.add Rat.sub Rat.mul Rat.inv

/-- Every stored account balance is nonnegative. -/
def accountsNonneg (s : St) : Prop := ∀ a ∈ s.accounts, 0 ≤ a.balance

instance (s : St) : Decidable (accountsNonneg s) := by
  unfold accountsNonneg; infer_instance

theorem saveAccount_ok_nonneg {s s2 : St} {a : Account}
    (h : saveAccount s a = .ok s2) (hs : accountsNonneg s) : accountsNonneg s2 := by
  unfold saveAccount at h
  split at h
  · exact absurd h (by simp)
  · rename_i hlt
    injection h with h2
    subst h2
    intro b hb
    simp only [List.mem_map] at hb
    obtain ⟨c, hc, hcb⟩ := hb
    by_cases hc2 : (c.accountNumber == a.accountNumber) = true
    · rw [if_pos hc2] at hcb; subst hcb; exact le_of_not_lt hlt
    · rw [if_neg hc2] at hcb; subst hcb; exact hs c hc

theorem saveTxn_ok_spec {s s2 : St} {t : Txn} (h : saveTxn s t = .ok s2) :
    s2.accounts = s.accounts ∧ s2.payments = s.payments ∧
    s2.transactions = s.transactions ++ [t] := by
  unfold saveTxn at h
  split at h
  · exact absurd h (by simp)
  · split at h
    · exact absurd h (by simp)
    · injection h with h2; subst h2; exact ⟨rfl, rfl, rfl⟩

theorem savePayment_ok_spec {s s2 : St} {p : PaymentRec} (h : savePayment s p = .ok s2) :
    s2.accounts = s.accounts ∧ s2.transactions = s.transactions ∧
    s2.payments = s.payments ++ [p] := by
  unfold savePayment at h
  split at h
  · exact absurd h (by simp)
  · split at h
    · exact absurd h (by simp)
    · injection h with h2; subst h2; exact ⟨rfl, rfl, rfl⟩

theorem deposit_ok_nonneg {s : St} {c : String} {a : JsValue} {d : Option String}
    {rf : String} {n : Nat} {r : MutResult}
    (h : deposit s c a d rf n = .ok r) (hs : accountsNonneg s) :
    accountsNonneg r.newState := by
  simp only [deposit] at h
  repeat' split at h
  all_goals try exact Except.noConfusion h
  rename_i x1 s1 hsave x2 s2 htxn
  injection h with h2
  subst h2
  intro b hb
  rw [(saveTxn_ok_spec htxn).1] at hb
  exact saveAccount_ok_nonneg hsave hs b hb

theorem withdraw_ok_nonneg {s : St} {c : String} {a : JsValue} {d : Option String}
    {rf : String} {n : Nat} {r : MutResult}
    (h : withdraw s c a d rf n = .ok r) (hs : accountsNonneg s) :
    accountsNonneg r.newState := by
  simp only [withdraw] at h
  repeat' split at h
  all_goals try exact Except.noConfusion h
  rename_i x1 s1 hsave x2 s2 htxn
  injection h with h2
  subst h2
  intro b hb
  rw [(saveTxn_ok_spec htxn).1] at hb
  exact saveAccount_ok_nonneg hsave hs b hb

theorem transfer_ok_nonneg {s : St} {c ref rcpt : String} {a : JsValue}
    {d : Option String} {n : Nat} {r : MutResult}
    (h : transfer s c ref rcpt a d n = .ok r) (hs : accountsNonneg s) :
    accountsNonneg r.newState := by
  simp only [transfer] at h
  repeat' split at h
  all_goals try exact Except.noConfusion h
  · injection h with h2
    subst h2
    exact hs
  · rename_i x1 s1 hsave1 x2 s2 hsave2 x3 s3 htxn1 x4 s4 htxn2 x5 s5 hpay1 x6 s6 hpay2
    injection h with h2
    subst h2
    intro b hb
    rw [(savePayment_ok_spec hpay2).1, (savePayment_ok_spec hpay1).1,
      (saveTxn_ok_spec htxn2).1, (saveTxn_ok_spec htxn1).1] at hb
    exact saveAccount_ok_nonneg hsave2 (saveAccount_ok_nonneg hsave1 hs) b hb

theorem verifyPaymentTail_ok_nonneg {s : St} {account : Account} {ref : String}
    {gw : GatewayData} {amt : ℚ} {pm : String} {n : Nat} {r : MutResult}
    (h : verifyPaymentTail s account ref gw amt pm n = .ok r)
    (hs : accountsNonneg s) : accountsNonneg r.newState := by
  simp only [verifyPaymentTail] at h
  repeat' split at h
  all_goals try exact Except.noConfusion h
  all_goals (
    rename_i x1 s1 hsave x2 s2 htxn x3 s3 hpay
    injection h with h2
    subst h2
    intro b hb
    rw [(savePayment_ok_spec hpay).1, (saveTxn_ok_spec htxn).1] at hb
    exact saveAccount_ok_nonneg hsave hs b hb)

theorem verifyPayment_ok_nonneg {s : St} {c ref : String} {gw : GatewayData}
    {n : Nat} {r : MutResult}
    (h : verifyPayment s c ref gw n = .ok r) (hs : accountsNonneg s) :
    accountsNonneg r.newState := by
  simp only [verifyPayment] at h
  repeat' split at h
  all_goals try exact Except.noConfusion h
  · injection h with h2
    subst h2
    exact hs
  all_goals exact verifyPaymentTail_ok_nonneg h hs

theorem applyOp_nonneg {s : St} {op : Op} (hs : accountsNonneg s) :
    accountsNonneg (applyOp s op) := by
  unfold applyOp
  cases hrun : runOp s op with
  | error e => exact hs
  | ok r =>
    cases op with
    | deposit c a d rf n => exact deposit_ok_nonneg hrun hs
    | withdraw c a d rf n => exact withdraw_ok_nonneg hrun hs
    | transfer c ref rcpt a d n => exact transfer_ok_nonneg hrun hs
    | verify c ref gw n => exact verifyPayment_ok_nonneg hrun hs

/-- C3: Balance non-negativity invariant: for every account and every
sequence of operations (deposit, withdraw, transfer, gateway payment
verification), the persisted account balance is always at least 0; no
reachable store has a negative balance.  The guards of the routes and
the schema-level `min: 0` validator run by every `account.save` (which
aborts the session) jointly preserve the invariant. -/
theorem c3_balance_nonneg_invariant (s : St) (ops : List Op)
    (hs : accountsNonneg s) : accountsNonneg (runOps s ops) := by
  unfold runOps
  induction ops generalizing s with
  | nil => exact hs
  | cons op rest ih => exact ih (applyOp s op) (applyOp_nonneg hs)

/-- A small concrete store used to instantiate claim theorems. -/
def wAcctA : Account := ⟨"1000000001", 100, "GHS", "active"⟩

/-- A second concrete account. -/
def wAcctB : Account := ⟨"1000000002", 10, "GHS", "active"⟩

/-- A concrete two-account store with empty logs. -/
def wSt : St := ⟨[wAcctA, wAcctB], [], []⟩

/-- A concrete operation sequence: a deposit, a withdrawal, a transfer
attempt and a gateway verification. -/
def wOps : List Op :=
  [Op.deposit "1000000001" (.num 25) none "DEP1" 1,
   Op.withdraw "1000000001" (.num 60) none "WDR1" 2,
   Op.transfer "1000000001" "TRF1" "1000000002" (.num 30) none 3,
   Op.verify "1000000002" "PSK1" ⟨"success", 5000, "mobile_money", "", "MTN", "0241234567", ""⟩ 4]

/-- Witness for C3 at a concrete store and operation list. -/
theorem c3_balance_nonneg_invariant_witness :
    accountsNonneg wSt ∧ accountsNonneg (runOps wSt wOps) :=
  ⟨by decide, c3_balance_nonneg_invariant wSt wOps (by decide)⟩

theorem roundTo2_eq_self {q : ℚ} (h : hasAtMostTwoDecimals q = true) :
    roundTo2 q = q := by
  unfold hasAtMostTwoDecimals at h
  rw [beq_iff_eq] at h
  have h2 : ((100 * q).num : ℚ) = 100 * q := (Rat.den_eq_one_iff _).mp h
  unfold roundTo2
  rw [show round (100 * q) = (100 * q).num by rw [← h2]; exact round_intCast _]
  rw [h2]
  exact mul_div_cancel_left₀ q (by norm_num)

theorem validateAmount_num_valid (q : ℚ) :
    (validateAmount (JsValue.num q)).valid = true ↔
    (1 / 100 ≤ q ∧ q ≤ 100000 ∧ hasAtMostTwoDecimals q = true) := by
  by_cases h0 : q = 0
  · subst h0
    norm_num [validateAmount, JsValue.truthy]
  · simp only [validateAmount, JsValue.truthy, h0, ne_eq, not_false_eq_true,
      decide_True, Bool.not_true, Bool.false_eq_true, if_false]
    split_ifs with h1 h2 h3
    · constructor
      · intro hh; exact absurd hh (by simp)
      · rintro ⟨hle, -, -⟩; exact absurd h1 (not_lt_of_ge hle)
    · constructor
      · intro hh; exact absurd hh (by simp)
      · rintro ⟨-, hle, -⟩; exact absurd h2 (not_lt_of_ge hle)
    · constructor
      · intro hh; exact absurd hh (by simp)
      · rintro ⟨-, -, hd⟩
        rw [hd] at h3
        exact absurd h3 (by simp)
    · constructor
      · intro _
        refine ⟨le_of_not_lt h1, le_of_not_lt h2, ?_⟩
        cases hb : hasAtMostTwoDecimals q with
        | true => rfl
        | false => rw [hb] at h3; exact absurd rfl h3
      · intro _; rfl

theorem validateAmount_num_amount (q : ℚ)
    (hvalid : (validateAmount (JsValue.num q)).valid = true) :
    (validateAmount (JsValue.num q)).amount = roundTo2 q := by
  have hch := (validateAmount_num_valid q).mp hvalid
  have h0 : ¬ q = 0 := by
    intro h
    rw [h] at hch
    norm_num at hch
  simp only [validateAmount, JsValue.truthy, h0, ne_eq, not_false_eq_true,
    decide_True, Bool.not_true, Bool.false_eq_true, if_false]
  rw [if_neg (not_lt_of_ge hch.1), if_neg (not_lt_of_ge hch.2.1),
    if_neg (by simp [hch.2.2])]

/-- C8: Money value validation: `validateAmount` accepts an input exactly
when it is a number at least 0.01, at most 100000, with at most two
fractional digits (rejecting non-positive, over-ceiling and
over-precise amounts with an error), and the accepted amount is the
input rounded to two decimal places
(`parseFloat(amount.toFixed(2))`). -/
theorem c8_validate_amount_spec :
    (∀ v : JsValue, (validateAmount v).valid = true ↔
      ∃ q : ℚ, v = JsValue.num q ∧ 1 / 100 ≤ q ∧ q ≤ 100000 ∧
        hasAtMostTwoDecimals q = true) ∧
    (∀ q : ℚ, (validateAmount (JsValue.num q)).valid = true →
      (validateAmount (JsValue.num q)).amount = roundTo2 q) := by
  constructor
  · intro v
    cases v with
    | num q =>
      rw [validateAmount_num_valid]
      constructor
      · intro ⟨h1, h2, h3⟩
        exact ⟨q, rfl, h1, h2, h3⟩
      · rintro ⟨q2, hq, h1, h2, h3⟩
        cases hq
        exact ⟨h1, h2, h3⟩
    | str s =>
      have hfalse : (validateAmount (JsValue.str s)).valid = false := by
        unfold validateAmount JsValue.truthy
        split <;> rfl
      constructor
      · intro h
        rw [hfalse] at h
        exact absurd h (by simp)
      · rintro ⟨q, hq, -⟩
        exact absurd hq (by simp)
    | undef =>
      have hfalse : (validateAmount JsValue.undef).valid = false := by
        unfold validateAmount JsValue.truthy
        split <;> rfl
      constructor
      · intro h
        rw [hfalse] at h
        exact absurd h (by simp)
      · rintro ⟨q, hq, -⟩
        exact absurd hq (by simp)
  · exact validateAmount_num_amount

/-- Witness for C8 at the concrete accepted input 12.5. -/
theorem c8_validate_amount_spec_witness :
    (validateAmount (JsValue.num (25 / 2))).valid = true ∧
    (validateAmount (JsValue.num (25 / 2))).amount = roundTo2 (25 / 2) := by
  have hd : hasAtMostTwoDecimals (25 / 2 : ℚ) = true := by
    unfold hasAtMostTwoDecimals
    rw [beq_iff_eq]
    norm_num [Rat.den_eq_one_iff]
  have hv : (validateAmount (JsValue.num (25 / 2))).valid = true :=
    (c8_validate_amount_spec.1 (JsValue.num (25 / 2))).mpr
      ⟨25 / 2, rfl, by norm_num, by norm_num, hd⟩
  exact ⟨hv, c8_validate_amount_spec.2 (25 / 2) hv⟩

theorem validateAmount_eval (q : ℚ) (h1 : 1 / 100 ≤ q) (h2 : q ≤ 100000)
    (h3 : hasAtMostTwoDecimals q = true) :
    validateAmount (JsValue.num q) = ⟨true, q, ""⟩ := by
  have h0 : ¬ q = 0 := by
    intro h
    rw [h] at h1
    norm_num at h1
  simp only [validateAmount, JsValue.truthy, h0, ne_eq, not_false_eq_true,
    decide_True, Bool.not_true, Bool.false_eq_true, if_false]
  rw [if_neg (not_lt_of_ge h1), if_neg (not_lt_of_ge h2), if_neg (by simp [h3]),
    roundTo2_eq_self h3]

theorem hasAtMostTwoDecimals_int (q : ℚ) (h : q.den = 1) :
    hasAtMostTwoDecimals q = true := by
  unfold hasAtMostTwoDecimals
  rw [beq_iff_eq]
  have h2 : ((q.num : ℤ) : ℚ) = q := (Rat.den_eq_one_iff q).mp h
  rw [← h2, show (100 : ℚ) * ((q.num : ℤ) : ℚ) = ((100 * q.num : ℤ) : ℚ) by
    push_cast
    ring]
  exact Rat.den_intCast _

/-- C10: the transaction store enforces at most one Transaction per
`(reference, type)` pair through the unique compound index: a second
write with the same reference and the same kind fails with a duplicate
key error (aborting its session), while a write with the same reference
and a different kind (the two legs of a transfer) is admitted. -/
theorem c10_reference_type_unique :
    ∀ (s s2 : St) (t1 t2 : Txn),
      saveTxn s t1 = Except.ok s2 →
      0 ≤ t2.amount →
      (t2.reference = t1.reference → t2.type = t1.type →
        saveTxn s2 t2 =
          Except.error "E11000 duplicate key error index reference_1_type_1") ∧
      (t2.reference = t1.reference → t2.type ≠ t1.type →
        s.transactions.any
          (fun u => u.reference == t2.reference && u.type == t2.type) = false →
        saveTxn s2 t2 =
          Except.ok { s2 with transactions := s2.transactions ++ [t2] }) := by
  intro s s2 t1 t2 hok hamt
  obtain ⟨-, -, htr⟩ := saveTxn_ok_spec hok
  constructor
  · intro href htype
    unfold saveTxn
    rw [if_neg (not_lt_of_ge hamt), if_pos ?_]
    rw [htr, List.any_append]
    simp [href, htype]
  · intro href htype hany
    unfold saveTxn
    rw [if_neg (not_lt_of_ge hamt), if_neg ?_]
    rw [htr, List.any_append]
    have hty : (t1.type == t2.type) = false :=
      beq_eq_false_iff_ne.mpr (Ne.symm htype)
    simp [hany, hty]

/-- The first transfer leg used by the C10 witness. -/
def wT1 : Txn :=
  ⟨"1000000001", "transfer_out", 40, "GHS", "completed", "d", 100, 60, "TRFW", 9⟩

/-- A second transfer-out with the same reference as `wT1`. -/
def wT1b : Txn :=
  ⟨"1000000003", "transfer_out", 40, "GHS", "completed", "d", 70, 30, "TRFW", 10⟩

/-- The matching transfer-in leg with the same reference as `wT1`. -/
def wT2 : Txn :=
  ⟨"1000000002", "transfer_in", 40, "GHS", "completed", "d", 10, 50, "TRFW", 9⟩

/-- The store holding only `wT1`. -/
def wSt1 : St := ⟨[], [wT1], []⟩

/-- Witness for C10: after admitting a transfer-out leg, a duplicate
transfer-out with the same reference is refused while the transfer-in
leg with the same reference is admitted. -/
theorem c10_reference_type_unique_witness :
    saveTxn ⟨[], [], []⟩ wT1 = Except.ok wSt1 ∧
    saveTxn wSt1 wT1b =
      Except.error "E11000 duplicate key error index reference_1_type_1" ∧
    saveTxn wSt1 wT2 =
      Except.ok { wSt1 with transactions := wSt1.transactions ++ [wT2] } := by
  have hok : saveTxn ⟨[], [], []⟩ wT1 = Except.ok wSt1 := rfl
  refine ⟨hok, ?_, ?_⟩
  · exact (c10_reference_type_unique _ _ wT1 wT1b hok (by norm_num [wT1b])).1 rfl rfl
  · exact (c10_reference_type_unique _ _ wT1 wT2 hok (by norm_num [wT2])).2 rfl
      (by decide) rfl

/-- Sender account for the C1 counterexample: its balance has already
dropped below the transferred amount. -/
def c1AcctA : Account := ⟨"1000000001", 20, "GHS", "active"⟩

/-- Recipient account for the C1 counterexample. -/
def c1AcctB : Account := ⟨"1000000002", 70, "GHS", "active"⟩

/-- The completed transfer-out transaction already stored under the
reference TRF1. -/
def c1Txn : Txn :=
  ⟨"1000000001", "transfer_out", 60, "GHS", "completed",
   "Transfer to 1000000002", 80, 20, "TRF1", 2⟩

/-- The store for the C1 counterexample. -/
def c1St : St :=
  ⟨[c1AcctA, c1AcctB], [c1Txn],
   [⟨"1000000001", "transfer", 60, "GHS", "completed", "TRF1"⟩]⟩

/-- C1 counterexample: a completed transfer-out Transaction for the token
TRF1 is stored, yet replaying the same transfer request returns the
error Insufficient funds instead of the stored result, because the
route checks the sender balance before the idempotency lookup and the
first application reduced the balance below the amount. -/
theorem c1_idempotent_replay_counterexample :
    c1Txn ∈ c1St.transactions ∧ c1Txn.reference = "TRF1" ∧
    c1Txn.type = "transfer_out" ∧ c1Txn.status = "completed" ∧
    transfer c1St "1000000001" "TRF1" "1000000002" (JsValue.num 60) none 5 =
      Except.error "Insufficient funds" := by
  refine ⟨by simp [c1St], rfl, rfl, rfl, ?_⟩
  have hval : validateAmount (JsValue.num 60) = ⟨true, 60, ""⟩ :=
    validateAmount_eval 60 (by norm_num) (by norm_num)
      (hasAtMostTwoDecimals_int _ (by norm_num))
  simp only [transfer, hval]
  rfl

/-- C1 as amended: the already-completed short circuits hold exactly
where the code places them.  For `verifyGatewayPayment`, a stored
completed Payment for the reference makes a replay return that record
with the store unchanged.  For `transfer`, the stored transfer-out for
the reference is returned with the store unchanged, but only when the
replayed request again passes every precondition check (valid amount,
both accounts found and active, distinct accounts, sufficient sender
balance), because the idempotency lookup runs after those checks. -/
theorem c1_idempotent_replay_amended :
    (∀ (s : St) (caller reference rcptN : String) (amount : JsValue)
        (description : Option String) (now : Nat) (sa ra : Account) (t0 : Txn),
        (validateAmount amount).valid = true →
        rcptN ≠ "" →
        reference ≠ "" →
        findAccount s caller = some sa →
        sa.status = "active" →
        findAccount s rcptN = some ra →
        ra.status = "active" →
        sa.accountNumber ≠ rcptN →
        ¬ sa.balance < (validateAmount amount).amount →
        s.transactions.find?
          (fun t => t.reference == reference && t.type == "transfer_out") =
            some t0 →
        transfer s caller reference rcptN amount description now =
          Except.ok ⟨s, "Transfer already completed", some t0, none,
            sa.balance⟩) ∧
    (∀ (s : St) (caller reference : String) (gw : GatewayData) (now : Nat)
        (a : Account) (p : PaymentRec),
        gw.status = "success" →
        findAccount s caller = some a →
        s.payments.find? (fun q2 => q2.paymentReference == reference) = some p →
        p.status = "completed" →
        verifyPayment s caller reference gw now =
          Except.ok ⟨s, "Payment already processed", none, some p,
            a.balance⟩) := by
  constructor
  · intro s caller reference rcptN amount description now sa ra t0 hv hrc
      href hfs hss hfr hrs hne hbal hfound
    have h1 : (rcptN == "") = false := beq_eq_false_iff_ne.mpr hrc
    have h2 : (reference == "") = false := beq_eq_false_iff_ne.mpr href
    have h3 : (sa.status != "active") = false := by simp [hss]
    have h4 : (ra.status != "active") = false := by simp [hrs]
    have h5 : (sa.accountNumber == rcptN) = false := beq_eq_false_iff_ne.mpr hne
    simp only [transfer, hv, h1, h2, h3, h4, h5, hfs, hfr, hfound, hbal,
      Bool.not_true, Bool.false_eq_true, if_false, ite_false]
  · intro s caller reference gw now a p hgw hfa hfp hp
    have h6 : (gw.status != "success") = false := by simp [hgw]
    have h7 : (p.status == "completed") = true := by simp [hp]
    simp only [verifyPayment, h6, h7, hfa, hfp, Bool.false_eq_true, if_false,
      if_true]

/-- Sender account for the C1 witness, still holding enough balance. -/
def c1wAcctA : Account := ⟨"1000000001", 60, "GHS", "active"⟩

/-- Recipient account for the C1 witness. -/
def c1wAcctB : Account := ⟨"1000000002", 110, "GHS", "active"⟩

/-- The stored transfer-out leg for the C1 witness. -/
def c1wTxn : Txn :=
  ⟨"1000000001", "transfer_out", 40, "GHS", "completed", "d", 100, 60,
   "TRF1", 2⟩

/-- The stored completed gateway payment for the C1 witness. -/
def c1wPay : PaymentRec :=
  ⟨"1000000001", "mobile_money", 50, "GHS", "completed", "PSK9"⟩

/-- The store for the C1 witness. -/
def c1wSt : St := ⟨[c1wAcctA, c1wAcctB], [c1wTxn], [c1wPay]⟩

/-- Witness for the amended C1 at concrete replays of a transfer and of a
gateway verification. -/
theorem c1_idempotent_replay_amended_witness :
    transfer c1wSt "1000000001" "TRF1" "1000000002" (JsValue.num 40) none 5 =
      Except.ok ⟨c1wSt, "Transfer already completed", some c1wTxn, none, 60⟩ ∧
    verifyPayment c1wSt "1000000001" "PSK9"
        ⟨"success", 5000, "mobile_money", "", "MTN", "0241234567", ""⟩ 6 =
      Except.ok ⟨c1wSt, "Payment already processed", none, some c1wPay, 60⟩ := by
  have hval : validateAmount (JsValue.num 40) = ⟨true, 40, ""⟩ :=
    validateAmount_eval 40 (by norm_num) (by norm_num)
      (hasAtMostTwoDecimals_int _ (by norm_num))
  constructor
  · exact c1_idempotent_replay_amended.1 c1wSt "1000000001" "TRF1" "1000000002"
      (JsValue.num 40) none 5 c1wAcctA c1wAcctB c1wTxn
      (by rw [hval]) (by decide) (by decide) rfl rfl rfl rfl (by decide)
      (by rw [hval]; decide) rfl
  · exact c1_idempotent_replay_amended.2 c1wSt "1000000001" "PSK9"
      ⟨"success", 5000, "mobile_money", "", "MTN", "0241234567", ""⟩ 6
      c1wAcctA c1wPay rfl rfl rfl rfl

/-- Store for the C2 failing input: one active account with balance 10. -/
def c2St : St := ⟨[⟨"1000000001", 10, "GHS", "active"⟩], [], []⟩

/-- Gateway answer for the C2 failing input: a successful card charge of
50.00 (5000 minor units). -/
def c2Gw : GatewayData := ⟨"success", 5000, "card", "Shop", "", "", ""⟩

/-- C2 failing input: the card/wallet branch of the verify route debits
without re-validating the balance; the over-balance debit is caught
only by the schema validator at save time, so the operation fails with
a validation error (not with Insufficient funds) and the store is
unchanged. -/
theorem c2_verify_debit_skips_revalidation :
    verifyPayment c2St "1000000001" "C2REF" c2Gw 3 =
      Except.error
        "Account validation failed: balance is less than minimum allowed value 0" ∧
    ("Account validation failed: balance is less than minimum allowed value 0" ≠
      "Insufficient funds") ∧
    applyOp c2St (Op.verify "1000000001" "C2REF" c2Gw 3) = c2St := by
  refine ⟨by decide, by decide, by decide⟩

/-- Store for the C4 failing input: the spec scenario, sender balance
100 and recipient balance 10, empty logs. -/
def c4St : St :=
  ⟨[⟨"1000000001", 100, "GHS", "active"⟩, ⟨"1000000002", 10, "GHS", "active"⟩],
   [], []⟩

/-- C4 failing input: the transfer route can never succeed, because both
legs write a Payment record with the same `paymentReference` under the
unique `paymentReference` index; the second payment save raises a
duplicate key error and the whole session aborts, so the scenario
(A 100, B 10, transfer 40 to A 60, B 50) is unreachable and no balance
moves. -/
theorem c4_transfer_never_succeeds :
    transfer c4St "1000000001" "TRF4" "1000000002" (JsValue.num 40) none 7 =
      Except.error "E11000 duplicate key error index paymentReference_1" ∧
    applyOp c4St
      (Op.transfer "1000000001" "TRF4" "1000000002" (JsValue.num 40) none 7) =
      c4St := by
  refine ⟨by decide, by decide⟩

/-- Store for the C5 failing input. -/
def c5St : St :=
  ⟨[⟨"2000000001", 80, "GHS", "active"⟩, ⟨"2000000002", 5, "GHS", "active"⟩],
   [], []⟩

/-- C5 failing input: no successful transfer exists, so the route never
reaches the state where the two paired transfer legs are committed: the
attempted transfer aborts on the duplicate `paymentReference` and
writes no Transaction at all. -/
theorem c5_transfer_pairing_unreachable :
    transfer c5St "2000000001" "TRF5" "2000000002" (JsValue.num 25) none 8 =
      Except.error "E11000 duplicate key error index paymentReference_1" ∧
    (applyOp c5St
      (Op.transfer "2000000001" "TRF5" "2000000002" (JsValue.num 25) none 8)
      ).transactions = [] := by
  refine ⟨by decide, by decide⟩

/-- Store for the C6 failing input: one frozen account with balance 100. -/
def c6St : St := ⟨[⟨"1000000001", 100, "GHS", "frozen"⟩], [], []⟩

/-- Gateway answer for the C6 failing input: a successful mobile-money
charge of 50.00. -/
def c6Gw : GatewayData :=
  ⟨"success", 5000, "mobile_money", "", "MTN", "0241234567", ""⟩

/-- The transaction the frozen-account verification writes. -/
def c6Txn : Txn :=
  ⟨"1000000001", "deposit", 50, "GHS", "completed",
   "Mobile money deposit via MTN", 100, 150, "C6REF", 3⟩

/-- The payment the frozen-account verification writes. -/
def c6Pay : PaymentRec :=
  ⟨"1000000001", "mobile_money", 50, "GHS", "completed", "C6REF"⟩

/-- The result the frozen-account verification returns. -/
def c6Res : MutResult :=
  ⟨⟨[⟨"1000000001", 150, "GHS", "frozen"⟩], [c6Txn], [c6Pay]⟩,
   "Deposit completed successfully", some c6Txn, some c6Pay, 150⟩

/-- C6 failing input: the verify route never checks `account.status`, so
a successful gateway verification credits a frozen account: the
operation succeeds and the persisted balance moves from 100 to 150. -/
theorem c6_verify_ignores_account_status :
    (⟨"1000000001", 100, "GHS", "frozen"⟩ : Account).status ≠ "active" ∧
    verifyPayment c6St "1000000001" "C6REF" c6Gw 3 = Except.ok c6Res ∧
    (applyOp c6St (Op.verify "1000000001" "C6REF" c6Gw 3)).accounts =
      [⟨"1000000001", 150, "GHS", "frozen"⟩] := by
  refine ⟨by decide, by decide, by decide⟩

/-- The webhook body of the C7 counterexample, as express parses it. -/
def c7Body : JObj := ⟨[("event", JVal.jstr "charge.success")]⟩

/-- The raw bytes of the C7 counterexample request: valid JSON for
`c7Body`, but spaced differently from its canonical stringification. -/
def c7Raw : String := "\x7b \"event\": \"charge.success\" \x7d"

/-- C7 counterexample: the signature check hashes
`JSON.stringify(req.body)` (by the definition of
`verifyPaystackSignature`), not the raw request bytes: here is a raw body
that parses to `c7Body`, yet the string fed to the HMAC differs from
the raw body, so the keyed hash is not computed over the exact raw
request body (and the comparison is the plain string equality operator,
not a constant-time comparison). -/
theorem c7_signature_not_over_raw_body :
    jsonParse c7Raw = some c7Body ∧ jsonStringify c7Body ≠ c7Raw := by
  exact ⟨by decide, by decide⟩

/-- C7 as amended: the authenticator hashes the canonical
re-serialization of the parsed body with the shared secret and compares
it to the header with ordinary string equality; on mismatch the handler
answers 401, and in every case the handler leaves the Payment and
Transaction store untouched (the webhook body performs no business
logic at all). -/
theorem c7_webhook_amended :
    ∀ (hmac : String → String → String) (secret : String) (s : St)
      (r : WebhookRequest),
      (paystackWebhook hmac secret s r).1 = s ∧
      (verifyPaystackSignature hmac secret r = false →
        (paystackWebhook hmac secret s r).2 = ⟨401, false⟩) ∧
      verifyPaystackSignature hmac secret r =
        (hmac secret (jsonStringify r.body) == r.signatureHeader) := by
  intro hmac secret s r
  refine ⟨?_, ?_, rfl⟩
  · unfold paystackWebhook
    split <;> rfl
  · intro hbad
    unfold paystackWebhook
    rw [hbad]
    rfl

/-- A store with one completed payment, used by the C7 witness. -/
def c7wSt : St :=
  ⟨[⟨"1000000001", 100, "GHS", "active"⟩], [],
   [⟨"1000000001", "card", 50, "GHS", "completed", "P7"⟩]⟩

/-- A webhook request with a tampered signature header. -/
def c7wReq : WebhookRequest := ⟨c7Raw, c7Body, "deadbeef"⟩

/-- Witness for the amended C7 at a concrete HMAC, secret, store and
tampered request. -/
theorem c7_webhook_amended_witness :
    (paystackWebhook (fun k m => k ++ "." ++ m) "sk" c7wSt c7wReq).1 = c7wSt ∧
    (paystackWebhook (fun k m => k ++ "." ++ m) "sk" c7wSt c7wReq).2 =
      ⟨401, false⟩ := by
  have h := c7_webhook_amended (fun k m => k ++ "." ++ m) "sk" c7wSt c7wReq
  exact ⟨h.1, h.2.1 (by decide)⟩

/-- The account owning the C9 transactions. -/
def c9Acct : Account := ⟨"1000000001", 500, "GHS", "active"⟩

/-- One hundred and one stored transactions for the C9 counterexample. -/
def c9Txns : List Txn :=
  (List.range 101).map
    (fun i => ⟨"1000000001", "deposit", 1, "GHS", "completed", "d", 0, 1,
      "R" ++ toString i, i⟩)

/-- The store for the C9 counterexample. -/
def c9St : St := ⟨[c9Acct], c9Txns, []⟩

/-- C9 counterexample: with `limit=101` the transaction history returns
101 records on one page — the route applies the raw caller-supplied
limit, so the hard cap of 100 does not hold. -/
theorem c9_history_cap_counterexample :
    (history c9St "1000000001" (some 1) (some 101) none none).toOption.map
      List.length = some 101 ∧ 100 < 101 := by
  exact ⟨by decide, by decide⟩

/-- C9 as amended: the history query is newest-first, and the page size
is bounded by the caller-supplied limit (default 20) — not by 100; the
100 cap lives only in `validatePagination`, which this route does not
call. -/
theorem c9_history_amended :
    (∀ (s : St) (caller : String) (page limit : Option Nat)
        (tf sf : Option String) (l : List Txn),
        history s caller page limit tf sf = Except.ok l →
        List.Sorted newerFirst l ∧ l.length ≤ limit.getD 20) ∧
    (∀ p lim : Option ℤ, (validatePagination p lim).limit ≤ 100) := by
  constructor
  · intro s caller page limit tf sf l h
    unfold history at h
    split at h
    · exact Except.noConfusion h
    · injection h with h2
      subst h2
      constructor
      · exact List.Pairwise.sublist
          ((List.take_sublist _ _).trans (List.drop_sublist _ _))
          (List.sorted_insertionSort newerFirst _)
      · exact le_trans (List.length_take_le _ _) (le_refl _)
  · intro p lim
    unfold validatePagination
    exact min_le_right _ _

/-- Witness for the amended C9 at a concrete store and query. -/
theorem c9_history_amended_witness :
    List.Sorted newerFirst
      ((history c9St "1000000001" (some 1) (some 7) none none).toOption.getD [])
      ∧
    ((history c9St "1000000001" (some 1) (some 7) none none).toOption.getD
      []).length ≤ 7 ∧
    (validatePagination (some 2) (some 500)).limit ≤ 100 := by
  have h := c9_history_amended.1 c9St "1000000001" (some 1) (some 7) none none
    ((history c9St "1000000001" (some 1) (some 7) none none).toOption.getD [])
  have hrun : history c9St "1000000001" (some 1) (some 7) none none =
      Except.ok ((history c9St "1000000001" (some 1) (some 7) none
        none).toOption.getD []) := by decide
  refine ⟨(h hrun).1, (h hrun).2, c9_history_amended.2 (some 2) (some 500)⟩

end BankLedger
